import Mathlib

/-!
Verification of the MedianAPE accuracy evaluator of
src/domain-packages/forecasting/models/AMLPF_models_sample_notebook.py
(function calc_median_ape, lines 231-248).

Embedding choices:
- An element of the float arrays is modelled as Option Rat: none models the
  IEEE NaN missing-value marker, some q a finite real value (the notebook only
  manipulates finite values once NaN entries are filtered out, so exact
  rational arithmetic is a faithful model of lines 246-247).
- NumPy boolean-mask selection of the two parallel equal-length arrays by one
  shared mask (lines 234-235 and 241-242) is embedded as filtering the zipped
  list of pairs, which selects exactly the same positions.
- On inputs of different lengths the source raises: line 234 computes
  np.isnan(y_true) | np.isnan(y_pred), which fails to broadcast when both
  lengths differ and neither is 1 or 0; when one length is 1 or 0 the mask
  takes the other length and the boolean indexing of the other array on
  line 234 or 235 then fails with an index error.  So every unequal-length
  pair of inputs raises, which the embedding models as Except.error ().
- np.median (line 247) sorts a copy of the data and returns the middle
  element for odd length, the arithmetic mean of the two middle elements for
  even length; the embedding sorts with List.insertionSort.
-/

/-- Element of a float array: none models NaN (np.isnan is true exactly on
none), some q a finite value. -/
abbrev Val := Option ℚ

/-- Shared per-position test of lines 234-235: a position survives the
missing-value mask iff neither the actual nor the predicted entry is NaN, in
which case both payloads are kept. -/
def keepPair : Val × Val → Option (ℚ × ℚ)
  | (some a, some b) => some (a, b)
  | _ => none

/-- Lines 234-237: y_true[~(isnan(y_true) | isnan(y_pred))] paired with
y_pred[~(isnan(y_true) | isnan(y_pred))], as one list of surviving pairs. -/
def rm_na (y_true y_pred : List Val) : List (ℚ × ℚ) :=
  (y_true.zip y_pred).filterMap keepPair

/-- Lines 241-242: y_true[y_true != 0] paired with y_pred[y_true != 0]; both
masks test only the actual value. -/
def rm_zero (l : List (ℚ × ℚ)) : List (ℚ × ℚ) :=
  l.filter fun p => decide (p.1 ≠ 0)

/-- Line 246: ape = np.abs((y_true_rm_zero - y_pred_rm_zero) / y_true_rm_zero) * 100,
elementwise over the surviving pairs. -/
def ape (l : List (ℚ × ℚ)) : List ℚ :=
  l.map fun p => |(p.1 - p.2) / p.1| * 100

/-- Line 247: np.median. Sorts a copy of the data; for odd length n the
result is element (n-1)/2 = n/2 of the sorted copy, for even length the
arithmetic mean of elements n/2 - 1 and n/2. -/
def median (l : List ℚ) : ℚ :=
  let s := List.insertionSort (· ≤ ·) l
  if l.length % 2 = 1 then s.getD (l.length / 2) 0
  else (s.getD (l.length / 2 - 1) 0 + s.getD (l.length / 2) 0) / 2

/-- Lines 231-248: calc_median_ape. Except.error () models the NumPy
broadcast/boolean-index exception raised on unequal input lengths (see the
module comment); Except.ok none models the np.nan sentinel returned at lines
240 and 245; Except.ok (some q) a numeric result. -/
def calc_median_ape (y_true y_pred : List Val) : Except Unit Val :=
  if y_true.length = y_pred.length then
    let y_rm_na := rm_na y_true y_pred
    if y_rm_na.length = 0 then Except.ok none
    else
      let y_rm_zero := rm_zero y_rm_na
      if y_rm_zero.length = 0 then Except.ok none
      else Except.ok (some (median (ape y_rm_zero)))
  else Except.error ()

/-- Modelled from the spec: per-position test of the Filtered Sample Set,
keeping position i iff actual i and predicted i are both non-missing and
actual i is non-zero (the conjunction of both filters in a single pass). -/
def keepPairConj : Val × Val → Option (ℚ × ℚ)
  | (some a, some b) => if a ≠ 0 then some (a, b) else none
  | _ => none

/-- Modelled from the spec: the Filtered Sample Set, selected in a single
pass as the intersection of the missing-value condition and the non-zero
actual condition. -/
def filteredSampleSet (y_true y_pred : List Val) : List (ℚ × ℚ) :=
  (y_true.zip y_pred).filterMap keepPairConj

/-- Modelled from the spec: reference computation for the refinement claim,
applying the two filters as one conjunction instead of sequentially. -/
def compute_median_ape_conj (y_true y_pred : List Val) : Except Unit Val :=
  if y_true.length = y_pred.length then
    let pairs := filteredSampleSet y_true y_pred
    if pairs.length = 0 then Except.ok none
    else Except.ok (some (median (ape pairs)))
  else Except.error ()

theorem rm_zero_filterMap (l : List (Val × Val)) :
    rm_zero (l.filterMap keepPair) = l.filterMap keepPairConj := by
  induction l with
  | nil => rfl
  | cons p t ih =>
    obtain ⟨a, b⟩ := p
    cases a with
    | none => simpa [keepPair, keepPairConj] using ih
    | some x =>
      cases b with
      | none => simpa [keepPair, keepPairConj] using ih
      | some y =>
        by_cases hx : x = 0
        · simp [keepPair, keepPairConj, rm_zero, hx] at ih ⊢
          exact ih
        · simp [keepPair, keepPairConj, rm_zero, hx] at ih ⊢
          exact ih

theorem fss_eq_rm (y_true y_pred : List Val) :
    filteredSampleSet y_true y_pred = rm_zero (rm_na y_true y_pred) :=
  (rm_zero_filterMap _).symm

theorem median_congr_perm (l l' : List ℚ) (h : l.Perm l') : median l = median l' := by
  unfold median
  rw [List.eq_of_perm_of_sorted (r := (· ≤ ·))
      ((List.perm_insertionSort _ l).trans (h.trans (List.perm_insertionSort _ l').symm))
      (List.sorted_insertionSort _ l) (List.sorted_insertionSort _ l'),
    h.length_eq]

theorem getD_pred (P : ℚ → Prop) (s : List ℚ) (d : ℚ) (hd : P d)
    (h : ∀ x ∈ s, P x) (i : ℕ) : P (s.getD i d) := by
  rcases Nat.lt_or_ge i s.length with hi | hi
  · rw [List.getD_eq_getElem?_getD, List.getElem?_eq_getElem hi]
    exact h _ (List.getElem_mem hi)
  · rw [List.getD_eq_default _ _ hi]
    exact hd

theorem median_nonneg (l : List ℚ) (h : ∀ x ∈ l, 0 ≤ x) : 0 ≤ median l := by
  have hs : ∀ x ∈ List.insertionSort (· ≤ ·) l, 0 ≤ x := fun x hx =>
    h x ((List.perm_insertionSort _ l).mem_iff.mp hx)
  unfold median
  split
  · exact getD_pred (0 ≤ ·) _ _ le_rfl hs _
  · have h1 := getD_pred (0 ≤ ·) _ 0 le_rfl hs (l.length / 2 - 1)
    have h2 := getD_pred (0 ≤ ·) _ 0 le_rfl hs (l.length / 2)
    positivity

theorem median_all_zero (l : List ℚ) (h : ∀ x ∈ l, x = 0) : median l = 0 := by
  have hs : ∀ x ∈ List.insertionSort (· ≤ ·) l, x = 0 := fun x hx =>
    h x ((List.perm_insertionSort _ l).mem_iff.mp hx)
  unfold median
  split
  · exact getD_pred (· = 0) _ _ rfl hs _
  · simp only [getD_pred (· = 0) _ 0 rfl hs (l.length / 2 - 1),
      getD_pred (· = 0) _ 0 rfl hs (l.length / 2)]
    norm_num

theorem calc_median_ape_eq_conj (y_true y_pred : List Val) :
    calc_median_ape y_true y_pred = compute_median_ape_conj y_true y_pred := by
  unfold calc_median_ape compute_median_ape_conj
  rw [fss_eq_rm]
  by_cases hlen : y_true.length = y_pred.length
  · rw [if_pos hlen, if_pos hlen]
    by_cases hna : (rm_na y_true y_pred).length = 0
    · rw [if_pos hna]
      have : rm_na y_true y_pred = [] := List.length_eq_zero.mp hna
      rw [if_pos (by simp [this, rm_zero])]
    · rw [if_neg hna]
  · rw [if_neg hlen, if_neg hlen]

/-- C6: the sequential pipeline of calc_median_ape (missing-value filter, then
zero-actual filter) computes the same result as the single-pass reference that
filters by the conjunction of both conditions, for every pair of input
sequences. -/
theorem medianAPE_eq_single_pass (y_true y_pred : List Val) :
    calc_median_ape y_true y_pred = compute_median_ape_conj y_true y_pred :=
  calc_median_ape_eq_conj y_true y_pred

/-- C7: on input sequences of different lengths, calc_median_ape raises (the
NumPy mask broadcast or boolean indexing at lines 234-235 fails), modelled as
Except.error; it does not return a numeric or sentinel value. -/
theorem medianAPE_length_mismatch_error (y_true y_pred : List Val)
    (h : y_true.length ≠ y_pred.length) :
    calc_median_ape y_true y_pred = Except.error () := by
  unfold calc_median_ape
  exact if_neg h

/-- Witness for C7 at the concrete input ([some 1], []). -/
theorem medianAPE_length_mismatch_error_witness :
    ([some 1] : List Val).length ≠ ([] : List Val).length ∧
      calc_median_ape [some 1] [] = Except.error () :=
  ⟨by decide, medianAPE_length_mismatch_error [some 1] [] (by decide)⟩

/-- C2: for equal-length inputs, calc_median_ape returns the NaN sentinel iff
the Filtered Sample Set (positions with non-missing actual and predicted and
non-zero actual) is empty. -/
theorem medianAPE_undefined_iff_empty_filter (y_true y_pred : List Val)
    (hlen : y_true.length = y_pred.length) :
    calc_median_ape y_true y_pred = Except.ok none ↔
      filteredSampleSet y_true y_pred = [] := by
  unfold calc_median_ape
  rw [if_pos hlen, fss_eq_rm]
  by_cases hna : (rm_na y_true y_pred).length = 0
  · rw [if_pos hna]
    have hnil : rm_na y_true y_pred = [] := List.length_eq_zero.mp hna
    simp [hnil, rm_zero]
  · rw [if_neg hna]
    by_cases hz : (rm_zero (rm_na y_true y_pred)).length = 0
    · rw [if_pos hz]
      simp [List.length_eq_zero.mp hz]
    · rw [if_neg hz]
      have h1 : rm_zero (rm_na y_true y_pred) ≠ [] := by
        intro h
        apply hz
        rw [h]
        rfl
      simp [h1]

/-- Witness for C2 at the concrete input ([some 0, some 0], [some 1, some 2]):
both actuals are zero, so the filtered set is empty and the result is NaN. -/
theorem medianAPE_undefined_iff_empty_filter_witness :
    ([some 0, some 0] : List Val).length = ([some 1, some 2] : List Val).length ∧
      (calc_median_ape [some 0, some 0] [some 1, some 2] = Except.ok none ↔
        filteredSampleSet [some 0, some 0] [some 1, some 2] = []) :=
  ⟨rfl, medianAPE_undefined_iff_empty_filter [some 0, some 0] [some 1, some 2] rfl⟩

/-- C3: for equal-length inputs calc_median_ape never errors; it returns the
NaN sentinel on empty input and on input in which every position has a missing
actual or a missing predicted value. -/
theorem medianAPE_total_on_equal_lengths (y_true y_pred : List Val)
    (hlen : y_true.length = y_pred.length) :
    (∃ v, calc_median_ape y_true y_pred = Except.ok v) ∧
      calc_median_ape ([] : List Val) [] = Except.ok none ∧
      ((∀ p ∈ y_true.zip y_pred, p.1 = none ∨ p.2 = none) →
        calc_median_ape y_true y_pred = Except.ok none) := by
  refine ⟨?_, rfl, ?_⟩
  · unfold calc_median_ape
    rw [if_pos hlen]
    by_cases hna : (rm_na y_true y_pred).length = 0
    · rw [if_pos hna]
      exact ⟨none, rfl⟩
    · rw [if_neg hna]
      by_cases hz : (rm_zero (rm_na y_true y_pred)).length = 0
      · rw [if_pos hz]
        exact ⟨none, rfl⟩
      · rw [if_neg hz]
        exact ⟨_, rfl⟩
  · intro hall
    have hna : rm_na y_true y_pred = [] := by
      apply List.filterMap_eq_nil_iff.mpr
      intro p hp
      obtain ⟨a, b⟩ := p
      rcases hall _ hp with h | h
      · simp only at h
        subst h
        rfl
      · simp only at h
        subst h
        cases a <;> rfl
    unfold calc_median_ape
    rw [if_pos hlen, if_pos (by rw [hna]; rfl)]

/-- Witness for C3 at the concrete input ([none, none], [some 1, some 2]): an
all-missing actual sequence yields the NaN sentinel and no error. -/
theorem medianAPE_total_on_equal_lengths_witness :
    ([none, none] : List Val).length = ([some 1, some 2] : List Val).length ∧
      ((∃ v, calc_median_ape [none, none] [some 1, some 2] = Except.ok v) ∧
        calc_median_ape ([] : List Val) [] = Except.ok none ∧
        ((∀ p ∈ ([none, none] : List Val).zip ([some 1, some 2] : List Val),
            p.1 = none ∨ p.2 = none) →
          calc_median_ape [none, none] [some 1, some 2] = Except.ok none)) := by
  refine ⟨rfl, ?_⟩
  exact medianAPE_total_on_equal_lengths [none, none] [some 1, some 2] rfl

/-- C9: calc_median_ape never returns a negative number: whenever it returns a
numeric value q, q is non-negative. -/
theorem medianAPE_result_nonneg (y_true y_pred : List Val) (q : ℚ)
    (h : calc_median_ape y_true y_pred = Except.ok (some q)) : 0 ≤ q := by
  unfold calc_median_ape at h
  by_cases hlen : y_true.length = y_pred.length
  · rw [if_pos hlen] at h
    by_cases hna : (rm_na y_true y_pred).length = 0
    · rw [if_pos hna] at h
      simp at h
    · rw [if_neg hna] at h
      by_cases hz : (rm_zero (rm_na y_true y_pred)).length = 0
      · rw [if_pos hz] at h
        simp at h
      · rw [if_neg hz] at h
        have hq : q = median (ape (rm_zero (rm_na y_true y_pred))) := by
          simpa using h.symm
        rw [hq]
        apply median_nonneg
        intro x hx
        unfold ape at hx
        obtain ⟨p, hp, rfl⟩ := List.mem_map.mp hx
        positivity
  · rw [if_neg hlen] at h
    simp at h

/-- Witness for C9 at the concrete input ([some 1], [some 2]). -/
theorem medianAPE_result_nonneg_witness : (0 : ℚ) ≤ 100 :=
  medianAPE_result_nonneg [some 1] [some 2] 100 (by
    simp [calc_median_ape, rm_na, rm_zero, keepPair, ape, median, List.insertionSort]
    norm_num)

/-- C8: calc_median_ape is invariant under a simultaneous permutation of both
input sequences by the same index permutation; both inputs are presented as
the two projections of one list of pairs, so one permutation of the pair list
reorders both sequences in the same way. -/
theorem medianAPE_perm_invariant (l l' : List (Val × Val)) (h : l.Perm l') :
    calc_median_ape (l.map Prod.fst) (l.map Prod.snd) =
      calc_median_ape (l'.map Prod.fst) (l'.map Prod.snd) := by
  have hz : ∀ m : List (Val × Val), (m.map Prod.fst).zip (m.map Prod.snd) = m := by
    intro m
    rw [List.zip_map']
    simp
  have hp1 : (rm_na (l.map Prod.fst) (l.map Prod.snd)).Perm
      (rm_na (l'.map Prod.fst) (l'.map Prod.snd)) := by
    unfold rm_na
    rw [hz, hz]
    exact h.filterMap keepPair
  have hp2 : (rm_zero (rm_na (l.map Prod.fst) (l.map Prod.snd))).Perm
      (rm_zero (rm_na (l'.map Prod.fst) (l'.map Prod.snd))) := hp1.filter _
  have hp3 : (ape (rm_zero (rm_na (l.map Prod.fst) (l.map Prod.snd)))).Perm
      (ape (rm_zero (rm_na (l'.map Prod.fst) (l'.map Prod.snd)))) := hp2.map _
  simp only [calc_median_ape]
  rw [List.length_map, List.length_map, List.length_map, List.length_map,
    h.length_eq, hp1.length_eq, hp2.length_eq, median_congr_perm _ _ hp3]

/-- Witness for C8: swapping the two positions of both sequences leaves the
result unchanged. -/
theorem medianAPE_perm_invariant_witness :
    calc_median_ape [some 1, some 3] [some 2, some 4] =
      calc_median_ape [some 3, some 1] [some 4, some 2] :=
  medianAPE_perm_invariant
    [((some 1 : Val), (some 2 : Val)), ((some 3 : Val), (some 4 : Val))]
    [((some 3 : Val), (some 4 : Val)), ((some 1 : Val), (some 2 : Val))]
    (List.Perm.swap _ _ _)

theorem rm_na_map_some (yt yp : List ℚ) :
    rm_na (yt.map some) (yp.map some) = yt.zip yp := by
  unfold rm_na
  rw [List.zip_map, List.filterMap_map]
  have hc : (keepPair ∘ Prod.map some some) = some := by
    funext p
    obtain ⟨a, b⟩ := p
    rfl
  rw [hc, List.filterMap_some]

theorem ape_zip (yt yp : List ℚ) :
    ape (yt.zip yp) = List.zipWith (fun a p => |(a - p) / a| * 100) yt yp := by
  induction yt generalizing yp with
  | nil => cases yp <;> rfl
  | cons a t ih =>
    cases yp with
    | nil => rfl
    | cons b s =>
      simp only [List.zip_cons_cons, ape, List.map_cons, List.zipWith_cons_cons,
        List.cons.injEq]
      exact ⟨trivial, by simpa [ape] using ih s⟩

/-- C1: on equal-length, non-empty inputs with no missing value and no zero
actual, calc_median_ape returns exactly the median of the per-position values
abs((actual - predicted) / actual) * 100. -/
theorem medianAPE_clean_exact_median (yt yp : List ℚ)
    (hlen : yt.length = yp.length) (hne : yt ≠ [])
    (hz : ∀ x ∈ yt, x ≠ 0) :
    calc_median_ape (yt.map some) (yp.map some) =
      Except.ok (some (median (List.zipWith (fun a p => |(a - p) / a| * 100) yt yp))) := by
  have hzip : rm_na (yt.map some) (yp.map some) = yt.zip yp := rm_na_map_some yt yp
  have hfil : rm_zero (yt.zip yp) = yt.zip yp := by
    apply List.filter_eq_self.mpr
    intro p hp
    exact decide_eq_true (hz p.1 (List.of_mem_zip hp).1)
  have hlen2 : (yt.zip yp).length = yt.length := by
    rw [List.length_zip, hlen, Nat.min_self]
  have hne2 : (yt.zip yp).length ≠ 0 := by
    rw [hlen2]
    intro hc
    exact hne (List.length_eq_zero.mp hc)
  simp only [calc_median_ape]
  rw [List.length_map, List.length_map, if_pos hlen, hzip, if_neg hne2, hfil,
    if_neg hne2, ape_zip]

/-- Witness for C1 at the concrete input ([10, 20], [11, 18]). -/
theorem medianAPE_clean_exact_median_witness :
    ([10, 20] : List ℚ).length = ([11, 18] : List ℚ).length ∧
      ([10, 20] : List ℚ) ≠ [] ∧
      (∀ x ∈ ([10, 20] : List ℚ), x ≠ 0) ∧
      calc_median_ape (([10, 20] : List ℚ).map some) (([11, 18] : List ℚ).map some) =
        Except.ok (some (median (List.zipWith (fun a p => |(a - p) / a| * 100)
          ([10, 20] : List ℚ) ([11, 18] : List ℚ)))) := by
  refine ⟨rfl, by simp, by norm_num, ?_⟩
  exact medianAPE_clean_exact_median [10, 20] [11, 18] rfl (by simp) (by norm_num)

theorem zip_self_eq (l : List ℚ) : l.zip l = l.map fun a => (a, a) := by
  induction l with
  | nil => rfl
  | cons a t ih => simp [ih]

/-- C10: predicting every value exactly (predicted sequence equal to the
actual sequence, no value missing, at least one value non-zero) yields a
MedianAPE of exactly 0. -/
theorem medianAPE_self_prediction_zero (ys : List ℚ)
    (hnz : ∃ x ∈ ys, x ≠ 0) :
    calc_median_ape (ys.map some) (ys.map some) = Except.ok (some 0) := by
  obtain ⟨x, hx, hx0⟩ := hnz
  have hzip : rm_na (ys.map some) (ys.map some) = ys.zip ys := rm_na_map_some ys ys
  have hne : ys ≠ [] := by
    intro h
    rw [h] at hx
    exact absurd hx (List.not_mem_nil x)
  have hne1 : (ys.zip ys).length ≠ 0 := by
    rw [List.length_zip, Nat.min_self]
    intro hc
    exact hne (List.length_eq_zero.mp hc)
  have hfz : rm_zero (ys.zip ys) =
      (ys.filter fun a => decide (a ≠ 0)).map fun a => (a, a) := by
    rw [zip_self_eq]
    unfold rm_zero
    rw [List.filter_map]
    rfl
  have hmem : x ∈ ys.filter fun a => decide (a ≠ 0) :=
    List.mem_filter.mpr ⟨hx, decide_eq_true hx0⟩
  have hne2 : (rm_zero (ys.zip ys)).length ≠ 0 := by
    rw [hfz, List.length_map]
    intro hc
    rw [List.length_eq_zero.mp hc] at hmem
    exact absurd hmem (List.not_mem_nil x)
  have hmed : median (ape (rm_zero (ys.zip ys))) = 0 := by
    apply median_all_zero
    intro v hv
    rw [hfz] at hv
    unfold ape at hv
    rw [List.map_map] at hv
    obtain ⟨a, _, rfl⟩ := List.mem_map.mp hv
    simp
  simp only [calc_median_ape]
  rw [if_pos trivial, hzip, if_neg hne1, if_neg hne2, hmed]

/-- Witness for C10 at the concrete input [5, 7] predicted by itself. -/
theorem medianAPE_self_prediction_zero_witness :
    (∃ x ∈ ([5, 7] : List ℚ), x ≠ 0) ∧
      calc_median_ape (([5, 7] : List ℚ).map some) (([5, 7] : List ℚ).map some) =
        Except.ok (some 0) :=
  ⟨⟨5, by norm_num⟩, medianAPE_self_prediction_zero [5, 7] ⟨5, by norm_num⟩⟩

/-- C4: on ([10, 0, 20], [11, 5, 18]) position 1 is dropped for its zero
actual and the result is 10; on ([10, NaN, 20], [11, 5, 18]) position 1 is
dropped for its missing actual and the result is again 10. -/
theorem medianAPE_concrete_examples :
    calc_median_ape [some 10, some 0, some 20] [some 11, some 5, some 18] =
        Except.ok (some 10) ∧
      calc_median_ape [some 10, none, some 20] [some 11, some 5, some 18] =
        Except.ok (some 10) := by
  have h2 : rm_zero [((10 : ℚ), (11 : ℚ)), (0, 5), (20, 18)] = [(10, 11), (20, 18)] := by
    norm_num [rm_zero]
  have h3 : ape [((10 : ℚ), (11 : ℚ)), ((20 : ℚ), (18 : ℚ))] = [10, 10] := by
    norm_num [ape, abs_div, abs_of_nonneg]
  have h4 : median [(10 : ℚ), 10] = 10 := by
    norm_num [median, List.insertionSort, List.orderedInsert,
      List.getD_cons_zero, List.getD_cons_succ]
  constructor
  · have h1 : rm_na [some 10, some 0, some 20] [some 11, some 5, some 18] =
        [(10, 11), (0, 5), (20, 18)] := rfl
    show Except.ok (some (median (ape (rm_zero (rm_na [some 10, some 0, some 20]
        [some 11, some 5, some 18]))))) = Except.ok (some 10)
    rw [h1, h2, h3, h4]
  · have h1 : rm_na [some 10, none, some 20] [some 11, some 5, some 18] =
        [(10, 11), (20, 18)] := rfl
    have h2b : rm_zero [((10 : ℚ), (11 : ℚ)), (20, 18)] = [(10, 11), (20, 18)] := by
      norm_num [rm_zero]
    show Except.ok (some (median (ape (rm_zero (rm_na [some 10, none, some 20]
        [some 11, some 5, some 18]))))) = Except.ok (some 10)
    rw [h1, h2b, h3, h4]

/-- C5: when the Filtered Sample Set is non-empty of even size, the result is
the arithmetic mean of the two middle elements of the sorted list of absolute
percentage errors (the linear-interpolation median of np.median). -/
theorem medianAPE_even_interpolation (y_true y_pred : List Val)
    (hlen : y_true.length = y_pred.length)
    (hne : filteredSampleSet y_true y_pred ≠ [])
    (heven : (filteredSampleSet y_true y_pred).length % 2 = 0) :
    calc_median_ape y_true y_pred =
      Except.ok (some
        (((List.insertionSort (· ≤ ·) (ape (filteredSampleSet y_true y_pred))).getD
            ((filteredSampleSet y_true y_pred).length / 2 - 1) 0 +
          (List.insertionSort (· ≤ ·) (ape (filteredSampleSet y_true y_pred))).getD
            ((filteredSampleSet y_true y_pred).length / 2) 0) / 2)) := by
  have hlen0 : (filteredSampleSet y_true y_pred).length ≠ 0 := fun hc =>
    hne (List.length_eq_zero.mp hc)
  have hl : (ape (filteredSampleSet y_true y_pred)).length =
      (filteredSampleSet y_true y_pred).length := by
    simp [ape]
  rw [calc_median_ape_eq_conj]
  simp only [compute_median_ape_conj]
  rw [if_pos hlen, if_neg hlen0]
  simp only [median]
  rw [hl, if_neg (by omega)]

/-- Witness for C5 at the concrete input ([some 1, some 2], [some 2, some 4]),
whose filtered set has size 2. -/
theorem medianAPE_even_interpolation_witness :
    ([some 1, some 2] : List Val).length = ([some 2, some 4] : List Val).length ∧
      filteredSampleSet [some 1, some 2] [some 2, some 4] ≠ [] ∧
      (filteredSampleSet [some 1, some 2] [some 2, some 4]).length % 2 = 0 ∧
      calc_median_ape [some 1, some 2] [some 2, some 4] =
        Except.ok (some
          (((List.insertionSort (· ≤ ·)
                (ape (filteredSampleSet [some 1, some 2] [some 2, some 4]))).getD
              ((filteredSampleSet [some 1, some 2] [some 2, some 4]).length / 2 - 1) 0 +
            (List.insertionSort (· ≤ ·)
                (ape (filteredSampleSet [some 1, some 2] [some 2, some 4]))).getD
              ((filteredSampleSet [some 1, some 2] [some 2, some 4]).length / 2) 0) / 2)) := by
  refine ⟨rfl, by decide, by decide, ?_⟩
  exact medianAPE_even_interpolation [some 1, some 2] [some 2, some 4] rfl
    (by decide) (by decide)
